import Mathlib

set_option linter.unusedVariables false

/-!
Verification of the cmocka mock/test templates in
`src/Api/test-framework/templates` (`mock_template.c`, `mock_template.h`,
`test_template.c`).

The C code keeps a static struct of per-function call counters, a
string-dispatch query `mock_function_called`, and eleven link-time
substitution stubs (`__wrap_*`) that bump their counter, optionally check
expected parameters via cmocka's `check_expected`, copy injected mock data
into caller buffers, and return values injected by the test case via
cmocka's `mock_type`.

Embedding choices:
* the static `call_counts` struct is the state type `CallCounts`, passed
  explicitly; C `int` counters become `Int`;
* C strings become `String`; `strcmp(a, b) == 0` becomes `a = b`;
* nullable byte-buffer pointers become `Option (List Nat)`, one `Nat` per
  `uint8_t`; `size_t` becomes `Nat`;
* values a test injects through cmocka (`mock_type`, `mock_ptr_type`) are
  modelled as an explicit environment argument to each stub that consumes
  any; stubs that consume none (the `*_close` stubs) take no environment;
* `check_expected(p)` / `check_expected_ptr(p)` are modelled as the stub
  emitting the string name of the checked parameter into a list of check
  events, in source order;
* `memcpy(dst, src, n)` on byte buffers becomes `memcpyList`.
-/

/-- State of the static `call_counts` struct (mock_template.c lines 31-44):
one `int` counter per mocked function. -/
structure CallCounts where
  i2c_open : Int
  i2c_close : Int
  i2c_write : Int
  i2c_read : Int
  uart_open : Int
  uart_close : Int
  uart_write : Int
  uart_read : Int
  spi_open : Int
  spi_close : Int
  spi_transfer : Int
deriving DecidableEq, Repr

/-- The all-zero counter state produced by `memset(&call_counts, 0, ...)`. -/
def zeroCounts : CallCounts :=
  ⟨0, 0, 0, 0, 0, 0, 0, 0, 0, 0, 0⟩

/-- `mock_reset_counters`: `memset(&call_counts, 0, sizeof(call_counts))`,
zeroing every field whatever the prior state. -/
def mock_reset_counters (_s : CallCounts) : CallCounts :=
  zeroCounts

/-- `mock_init`: calls `mock_reset_counters()`. -/
def mock_init (s : CallCounts) : CallCounts :=
  mock_reset_counters s

/-- `mock_cleanup`: empty body, nothing to do. -/
def mock_cleanup (s : CallCounts) : CallCounts :=
  s

/-- `mock_function_called(function_name, expected_calls)`: a linear chain of
`strcmp` comparisons selecting the counter to compare; unknown names print a
warning and return `false`. -/
def mock_function_called (s : CallCounts) (function_name : String)
    (expected_calls : Int) : Bool :=
  if function_name = "i2c_open" then s.i2c_open == expected_calls
  else if function_name = "i2c_close" then s.i2c_close == expected_calls
  else if function_name = "i2c_write" then s.i2c_write == expected_calls
  else if function_name = "i2c_read" then s.i2c_read == expected_calls
  else if function_name = "uart_open" then s.uart_open == expected_calls
  else if function_name = "uart_close" then s.uart_close == expected_calls
  else if function_name = "uart_write" then s.uart_write == expected_calls
  else if function_name = "uart_read" then s.uart_read == expected_calls
  else if function_name = "spi_open" then s.spi_open == expected_calls
  else if function_name = "spi_close" then s.spi_close == expected_calls
  else if function_name = "spi_transfer" then s.spi_transfer == expected_calls
  else false

/-- Whether `mock_function_called` falls through its whole `strcmp` chain to
the `printf` warning branch (mock_template.c lines 92-94). -/
def mock_function_called_warned (function_name : String) : Bool :=
  if function_name = "i2c_open" then false
  else if function_name = "i2c_close" then false
  else if function_name = "i2c_write" then false
  else if function_name = "i2c_read" then false
  else if function_name = "uart_open" then false
  else if function_name = "uart_close" then false
  else if function_name = "uart_write" then false
  else if function_name = "uart_read" then false
  else if function_name = "spi_open" then false
  else if function_name = "spi_close" then false
  else if function_name = "spi_transfer" then false
  else true

/-- The eleven function names the dispatcher recognises. -/
def knownFunctionNames : List String :=
  ["i2c_open", "i2c_close", "i2c_write", "i2c_read",
   "uart_open", "uart_close", "uart_write", "uart_read",
   "spi_open", "spi_close", "spi_transfer"]

/-- `memcpy(dst, src, n)` on byte buffers: the first `n` bytes of `src`
followed by the part of `dst` beyond position `n`. -/
def memcpyList (dst src : List Nat) (n : Nat) : List Nat :=
  src.take n ++ dst.drop n

/-- `__wrap_i2c_open(bus, addr)`: bump the counter, return the value the
test case injected via `mock_type(int)`. Result: (counters, return). -/
def __wrap_i2c_open (env : Int) (s : CallCounts) (bus : String)
    (addr : Nat) : CallCounts × Int :=
  ({ s with i2c_open := s.i2c_open + 1 }, env)

/-- `__wrap_i2c_close(fd)`: bump the counter, `return 0`. -/
def __wrap_i2c_close (s : CallCounts) (fd : Int) : CallCounts × Int :=
  ({ s with i2c_close := s.i2c_close + 1 }, 0)

/-- `__wrap_i2c_write(fd, cmd, data, data_len)`: bump the counter, always
`check_expected` cmd and data_len, `check_expected_ptr` data only when
`data && data_len > 0`, return the injected value.
Result: (counters, check events, return). -/
def __wrap_i2c_write (env : Int) (s : CallCounts) (fd : Int) (cmd : Nat)
    (data : Option (List Nat)) (data_len : Nat) :
    CallCounts × List String × Int :=
  ({ s with i2c_write := s.i2c_write + 1 },
   ["cmd", "data_len"] ++ (if data.isSome ∧ 0 < data_len then ["data"] else []),
   env)

/-- Test-injected values consumed by `__wrap_i2c_read`: the
`mock_ptr_type(uint8_t *)` data pointer (possibly NULL) and the final
`mock_type(int)` return value. -/
structure I2cReadEnv where
  mock_data : Option (List Nat)
  ret : Int
deriving DecidableEq, Repr

/-- `__wrap_i2c_read(fd, cmd, rx_buffer, rx_len)`: bump the counter, check
cmd and rx_len, and when `rx_buffer && rx_len > 0` fetch the injected data
pointer and `memcpy(rx_buffer, mock_data, rx_len)` if it is non-NULL;
always return the injected value.
Result: (counters, check events, buffer after the call, return). -/
def __wrap_i2c_read (env : I2cReadEnv) (s : CallCounts) (fd : Int)
    (cmd : Nat) (rx_buffer : Option (List Nat)) (rx_len : Nat) :
    CallCounts × List String × Option (List Nat) × Int :=
  let s' := { s with i2c_read := s.i2c_read + 1 }
  let checks := ["cmd", "rx_len"]
  let buf : Option (List Nat) :=
    match rx_buffer with
    | none => none
    | some b =>
      if 0 < rx_len then
        match env.mock_data with
        | some d => some (memcpyList b d rx_len)
        | none => some b
      else some b
  (s', checks, buf, env.ret)

/-- `__wrap_uart_open(device, baudrate)`: bump the counter, return the
injected value. -/
def __wrap_uart_open (env : Int) (s : CallCounts) (device : String)
    (baudrate : Int) : CallCounts × Int :=
  ({ s with uart_open := s.uart_open + 1 }, env)

/-- `__wrap_uart_close(fd)`: bump the counter, `return 0`. -/
def __wrap_uart_close (s : CallCounts) (fd : Int) : CallCounts × Int :=
  ({ s with uart_close := s.uart_close + 1 }, 0)

/-- `__wrap_uart_write(fd, data, len)`: bump the counter, always check len,
check data only when `data && len > 0`, return the injected value. -/
def __wrap_uart_write (env : Int) (s : CallCounts) (fd : Int)
    (data : Option (List Nat)) (len : Nat) :
    CallCounts × List String × Int :=
  ({ s with uart_write := s.uart_write + 1 },
   ["len"] ++ (if data.isSome ∧ 0 < len then ["data"] else []),
   env)

/-- Test-injected values consumed by `__wrap_uart_read`: the
`mock_ptr_type(uint8_t *)` data pointer, the `mock_type(size_t)` mock data
length, and the fall-through `mock_type(int)` return value. -/
structure UartReadEnv where
  mock_data : Option (List Nat)
  mock_len : Nat
  ret : Int
deriving DecidableEq, Repr

/-- `__wrap_uart_read(fd, buffer, len, timeout_ms)`: bump the counter, check
len and timeout_ms; when `buffer && len > 0` and the injected data pointer
is non-NULL, copy `copy_len = (len < mock_len) ? len : mock_len` bytes and
return `copy_len`; otherwise return the injected value.
Result: (counters, check events, buffer after the call, return). -/
def __wrap_uart_read (env : UartReadEnv) (s : CallCounts) (fd : Int)
    (buffer : Option (List Nat)) (len : Nat) (timeout_ms : Int) :
    CallCounts × List String × Option (List Nat) × Int :=
  let s' := { s with uart_read := s.uart_read + 1 }
  let checks := ["len", "timeout_ms"]
  let out : Option (List Nat) × Int :=
    match buffer with
    | none => (none, env.ret)
    | some b =>
      if 0 < len then
        match env.mock_data with
        | some d =>
          let copy_len := if len < env.mock_len then len else env.mock_len
          (some (memcpyList b d copy_len), (copy_len : Int))
        | none => (some b, env.ret)
      else (some b, env.ret)
  (s', checks, out.1, out.2)

/-- `__wrap_spi_open(device, mode, speed_hz)`: bump the counter, return the
injected value. -/
def __wrap_spi_open (env : Int) (s : CallCounts) (device : String)
    (mode : Int) (speed_hz : Int) : CallCounts × Int :=
  ({ s with spi_open := s.spi_open + 1 }, env)

/-- `__wrap_spi_close(fd)`: bump the counter, `return 0`. -/
def __wrap_spi_close (s : CallCounts) (fd : Int) : CallCounts × Int :=
  ({ s with spi_close := s.spi_close + 1 }, 0)

/-- Test-injected values consumed by `__wrap_spi_transfer`: the
`mock_ptr_type(uint8_t *)` rx data pointer and the `mock_type(int)` return
value. -/
structure SpiTransferEnv where
  mock_data : Option (List Nat)
  ret : Int
deriving DecidableEq, Repr

/-- `__wrap_spi_transfer(fd, tx_buf, rx_buf, len)`: bump the counter, always
check len, check tx_buf only when `tx_buf && len > 0`; when
`rx_buf && len > 0` and the injected pointer is non-NULL,
`memcpy(rx_buf, mock_data, len)`; always return the injected value.
Result: (counters, check events, rx buffer after the call, return). -/
def __wrap_spi_transfer (env : SpiTransferEnv) (s : CallCounts) (fd : Int)
    (tx_buf : Option (List Nat)) (rx_buf : Option (List Nat)) (len : Nat) :
    CallCounts × List String × Option (List Nat) × Int :=
  let s' := { s with spi_transfer := s.spi_transfer + 1 }
  let checks := ["len"] ++ (if tx_buf.isSome ∧ 0 < len then ["tx_buf"] else [])
  let buf : Option (List Nat) :=
    match rx_buf with
    | none => none
    | some b =>
      if 0 < len then
        match env.mock_data with
        | some d => some (memcpyList b d len)
        | none => some b
      else some b
  (s', checks, buf, env.ret)

/-- C1: for every counter state and every integer n, `mock_function_called`
on each of the eleven known names returns true iff the counter associated
with that name equals n; the dispatch is the fixed name-to-counter mapping. -/
theorem mock_function_called_known_names (s : CallCounts) (n : Int) :
    (mock_function_called s "i2c_open" n = true ↔ s.i2c_open = n) ∧
    (mock_function_called s "i2c_close" n = true ↔ s.i2c_close = n) ∧
    (mock_function_called s "i2c_write" n = true ↔ s.i2c_write = n) ∧
    (mock_function_called s "i2c_read" n = true ↔ s.i2c_read = n) ∧
    (mock_function_called s "uart_open" n = true ↔ s.uart_open = n) ∧
    (mock_function_called s "uart_close" n = true ↔ s.uart_close = n) ∧
    (mock_function_called s "uart_write" n = true ↔ s.uart_write = n) ∧
    (mock_function_called s "uart_read" n = true ↔ s.uart_read = n) ∧
    (mock_function_called s "spi_open" n = true ↔ s.spi_open = n) ∧
    (mock_function_called s "spi_close" n = true ↔ s.spi_close = n) ∧
    (mock_function_called s "spi_transfer" n = true ↔ s.spi_transfer = n) := by
  simp [mock_function_called]

/-- C2: each `__wrap_` stub increments exactly its own counter by one and
leaves every other field of the counter struct unchanged, from any state. -/
theorem wrap_stubs_increment_exactly_own (s : CallCounts)
    (eio euo eso eiw euw : Int)
    (eir : I2cReadEnv) (eur : UartReadEnv) (est : SpiTransferEnv)
    (bus device : String) (addr cmd data_len rx_len ulen len slen : Nat)
    (fd baudrate mode speed_hz timeout_ms : Int)
    (data rx_buffer buffer tx_buf rx_buf : Option (List Nat)) :
    (__wrap_i2c_open eio s bus addr).1 =
      { s with i2c_open := s.i2c_open + 1 } ∧
    (__wrap_i2c_close s fd).1 =
      { s with i2c_close := s.i2c_close + 1 } ∧
    (__wrap_i2c_write eiw s fd cmd data data_len).1 =
      { s with i2c_write := s.i2c_write + 1 } ∧
    (__wrap_i2c_read eir s fd cmd rx_buffer rx_len).1 =
      { s with i2c_read := s.i2c_read + 1 } ∧
    (__wrap_uart_open euo s device baudrate).1 =
      { s with uart_open := s.uart_open + 1 } ∧
    (__wrap_uart_close s fd).1 =
      { s with uart_close := s.uart_close + 1 } ∧
    (__wrap_uart_write euw s fd data ulen).1 =
      { s with uart_write := s.uart_write + 1 } ∧
    (__wrap_uart_read eur s fd buffer len timeout_ms).1 =
      { s with uart_read := s.uart_read + 1 } ∧
    (__wrap_spi_open eso s device mode speed_hz).1 =
      { s with spi_open := s.spi_open + 1 } ∧
    (__wrap_spi_close s fd).1 =
      { s with spi_close := s.spi_close + 1 } ∧
    (__wrap_spi_transfer est s fd tx_buf rx_buf slen).1 =
      { s with spi_transfer := s.spi_transfer + 1 } :=
  ⟨rfl, rfl, rfl, rfl, rfl, rfl, rfl, rfl, rfl, rfl, rfl⟩

/-- C3: `__wrap_uart_read` with a non-null buffer, positive len and a
non-null injected data pointer copies exactly `min len mock_len` bytes of
the injected data into the buffer and returns that count; with a null
buffer, zero len, or a null injected pointer it instead leaves the buffer
alone and returns the injected return value. -/
theorem uart_read_copies_min_and_falls_through (env : UartReadEnv)
    (s : CallCounts) (fd timeout_ms : Int) :
    (∀ (b d : List Nat) (len : Nat), 0 < len → env.mock_data = some d →
      min len env.mock_len ≤ d.length →
      __wrap_uart_read env s fd (some b) len timeout_ms =
        ({ s with uart_read := s.uart_read + 1 }, ["len", "timeout_ms"],
         some (d.take (min len env.mock_len) ++ b.drop (min len env.mock_len)),
         ((min len env.mock_len : Nat) : Int)) ∧
      (d.take (min len env.mock_len)).length = min len env.mock_len) ∧
    (∀ (buffer : Option (List Nat)) (len : Nat),
      buffer = none ∨ len = 0 ∨ env.mock_data = none →
      (__wrap_uart_read env s fd buffer len timeout_ms).2.2.1 = buffer ∧
      (__wrap_uart_read env s fd buffer len timeout_ms).2.2.2 = env.ret) := by
  constructor
  · intro b d len hlen hd hle
    have hcopy : (if len < env.mock_len then len else env.mock_len) =
        min len env.mock_len := by
      rw [Nat.min_def]; split <;> split <;> omega
    refine ⟨?_, ?_⟩
    · simp only [__wrap_uart_read, hd, if_pos hlen, memcpyList, hcopy]
    · rw [List.length_take]; omega
  · rintro buffer len (rfl | rfl | hnone)
    · exact ⟨rfl, rfl⟩
    · cases buffer <;> simp [__wrap_uart_read]
    · cases buffer with
      | none => exact ⟨rfl, rfl⟩
      | some b =>
        by_cases h : 0 < len <;> simp [__wrap_uart_read, h, hnone]

/-- Witness for C3: evaluates both branches of the theorem at concrete
inputs. -/
theorem uart_read_copies_min_and_falls_through_witness :
    (__wrap_uart_read ⟨some [1, 2, 3], 2, 7⟩ zeroCounts 0
        (some [9, 9, 9, 9]) 4 5 =
      ({ zeroCounts with uart_read := 1 }, ["len", "timeout_ms"],
       some ([1, 2, 3].take (min 4 2) ++ [9, 9, 9, 9].drop (min 4 2)),
       ((min 4 2 : Nat) : Int))) ∧
    (__wrap_uart_read ⟨none, 2, 7⟩ zeroCounts 0 (some [9, 9]) 2 5).2.2.2
      = 7 := by
  constructor
  · exact ((uart_read_copies_min_and_falls_through ⟨some [1, 2, 3], 2, 7⟩
      zeroCounts 0 5).1 [9, 9, 9, 9] [1, 2, 3] 4 (by decide) rfl
      (by decide)).1
  · exact ((uart_read_copies_min_and_falls_through ⟨none, 2, 7⟩
      zeroCounts 0 5).2 (some [9, 9]) 2 (Or.inr (Or.inr rfl))).2

/-- C4: `__wrap_i2c_read` with a non-null buffer, positive rx_len and a
non-null injected pointer copies exactly rx_len bytes of the injected data
(no clamping to the data's length), and always returns the injected return
value; `__wrap_spi_transfer` behaves the same way for rx_buf and len. -/
theorem i2c_read_and_spi_transfer_copy_unclamped (ei : I2cReadEnv)
    (es : SpiTransferEnv) (s : CallCounts) (fd : Int) (cmd : Nat)
    (tx_buf : Option (List Nat)) :
    (∀ (b d : List Nat) (rx_len : Nat), 0 < rx_len →
      ei.mock_data = some d → rx_len ≤ d.length →
      (__wrap_i2c_read ei s fd cmd (some b) rx_len).2.2.1 =
        some (d.take rx_len ++ b.drop rx_len) ∧
      (d.take rx_len).length = rx_len) ∧
    (∀ (rx_buffer : Option (List Nat)) (rx_len : Nat),
      (__wrap_i2c_read ei s fd cmd rx_buffer rx_len).2.2.2 = ei.ret) ∧
    (∀ (b d : List Nat) (len : Nat), 0 < len →
      es.mock_data = some d → len ≤ d.length →
      (__wrap_spi_transfer es s fd tx_buf (some b) len).2.2.1 =
        some (d.take len ++ b.drop len) ∧
      (d.take len).length = len) ∧
    (∀ (rx_buf : Option (List Nat)) (len : Nat),
      (__wrap_spi_transfer es s fd tx_buf rx_buf len).2.2.2 = es.ret) := by
  refine ⟨?_, ?_, ?_, ?_⟩
  · intro b d rx_len hlen hd hle
    refine ⟨?_, ?_⟩
    · simp only [__wrap_i2c_read, hd, if_pos hlen, memcpyList]
    · rw [List.length_take]; omega
  · intro rx_buffer rx_len; rfl
  · intro b d len hlen hd hle
    refine ⟨?_, ?_⟩
    · simp only [__wrap_spi_transfer, hd, if_pos hlen, memcpyList]
    · rw [List.length_take]; omega
  · intro rx_buf len; rfl

/-- Witness for C4: evaluates both stubs at concrete inputs, with mock data
shorter than what an unclamped copy of that length needs elsewhere. -/
theorem i2c_read_and_spi_transfer_copy_unclamped_witness :
    (__wrap_i2c_read ⟨some [4, 5, 6], 9⟩ zeroCounts 0 1
        (some [0, 0]) 2).2.2.1 =
      some ([4, 5, 6].take 2 ++ [0, 0].drop 2) ∧
    (__wrap_i2c_read ⟨some [4, 5, 6], 9⟩ zeroCounts 0 1
        (some [0, 0]) 2).2.2.2 = 9 ∧
    (__wrap_spi_transfer ⟨some [4, 5], -2⟩ zeroCounts 0 none
        (some [0, 0]) 2).2.2.1 =
      some ([4, 5].take 2 ++ [0, 0].drop 2) ∧
    (__wrap_spi_transfer ⟨some [4, 5], -2⟩ zeroCounts 0 none
        (some [0, 0]) 2).2.2.2 = -2 := by
  have h := i2c_read_and_spi_transfer_copy_unclamped ⟨some [4, 5, 6], 9⟩
    ⟨some [4, 5], -2⟩ zeroCounts 0 1 none
  exact ⟨(h.1 [0, 0] [4, 5, 6] 2 (by decide) rfl (by decide)).1,
    h.2.1 (some [0, 0]) 2,
    (h.2.2.1 [0, 0] [4, 5] 2 (by decide) rfl (by decide)).1,
    h.2.2.2 (some [0, 0]) 2⟩

/-- C5 counterexample: the three `*_close` stubs do not return an
externally supplied value. Their bodies consume no test-injected value at
all and return the fixed constant 0, so a test hoping to see a close
result of 1 still observes 0. -/
theorem close_stubs_return_fixed_zero_cex :
    (__wrap_i2c_close zeroCounts 3).2 = 0 ∧
    (__wrap_uart_close zeroCounts 3).2 = 0 ∧
    (__wrap_spi_close zeroCounts 3).2 = 0 ∧
    (__wrap_i2c_close zeroCounts 3).2 ≠ 1 ∧
    (__wrap_uart_close zeroCounts 3).2 ≠ 1 ∧
    (__wrap_spi_close zeroCounts 3).2 ≠ 1 :=
  ⟨rfl, rfl, rfl, by decide, by decide, by decide⟩

/-- C5 amended: the open, write, read and transfer stubs return the
test-injected value (for `__wrap_uart_read`, whenever no mock data pointer
is injected), while the three close stubs return the constant 0. -/
theorem stubs_return_injected_except_close (s : CallCounts)
    (env r : Int) (eir : I2cReadEnv) (est : SpiTransferEnv) (ml : Nat)
    (bus device : String) (addr cmd data_len rx_len len : Nat)
    (fd baudrate mode speed_hz timeout_ms : Int)
    (data rx_buffer buffer tx_buf rx_buf : Option (List Nat)) :
    (__wrap_i2c_open env s bus addr).2 = env ∧
    (__wrap_uart_open env s device baudrate).2 = env ∧
    (__wrap_spi_open env s device mode speed_hz).2 = env ∧
    (__wrap_i2c_write env s fd cmd data data_len).2.2 = env ∧
    (__wrap_uart_write env s fd data len).2.2 = env ∧
    (__wrap_i2c_read eir s fd cmd rx_buffer rx_len).2.2.2 = eir.ret ∧
    (__wrap_spi_transfer est s fd tx_buf rx_buf len).2.2.2 = est.ret ∧
    (__wrap_uart_read ⟨none, ml, r⟩ s fd buffer len timeout_ms).2.2.2 = r ∧
    (__wrap_i2c_close s fd).2 = 0 ∧
    (__wrap_uart_close s fd).2 = 0 ∧
    (__wrap_spi_close s fd).2 = 0 := by
  refine ⟨rfl, rfl, rfl, rfl, rfl, rfl, rfl, ?_, rfl, rfl, rfl⟩
  cases buffer with
  | none => rfl
  | some b => by_cases h : 0 < len <;> simp [__wrap_uart_read, h]

/-- A cmocka test-case entry as built by
`cmocka_unit_test_setup_teardown(f, setup, teardown)`: the test function
and its per-test hooks, each identified by name. -/
structure CMUnitTest where
  test_name : String
  setup : Option String
  teardown : Option String
deriving DecidableEq, Repr

/-- `cmocka_unit_test_setup_teardown(f, setup, teardown)`. -/
def cmocka_unit_test_setup_teardown (test_name setup teardown : String) :
    CMUnitTest :=
  ⟨test_name, some setup, some teardown⟩

/-- The `tests` array built in `main` (test_template.c lines 244-257). -/
def main_tests : List CMUnitTest :=
  [cmocka_unit_test_setup_teardown "test_init_success"
     "test_setup" "test_teardown",
   cmocka_unit_test_setup_teardown "test_init_failure"
     "test_setup" "test_teardown",
   cmocka_unit_test_setup_teardown "test_function1_success"
     "test_setup" "test_teardown",
   cmocka_unit_test_setup_teardown "test_function2_success"
     "test_setup" "test_teardown",
   cmocka_unit_test_setup_teardown "test_function3_error_handling"
     "test_setup" "test_teardown",
   cmocka_unit_test_setup_teardown "test_write_error"
     "test_setup" "test_teardown",
   cmocka_unit_test_setup_teardown "test_read_error"
     "test_setup" "test_teardown"]

/-- A call to `cmocka_run_group_tests(tests, group_setup, group_teardown)`:
the registered test list plus the group-level hooks. -/
structure GroupRun where
  tests : List CMUnitTest
  group_setup : String
  group_teardown : String
deriving DecidableEq, Repr

/-- `main` of test_template.c: runs `main_tests` with `global_setup` and
`global_teardown` as the group hooks. -/
def main_run : GroupRun :=
  ⟨main_tests, "global_setup", "global_teardown"⟩

/-- C6 counterexample: the test list registered in `main` is not empty; it
holds seven placeholder test cases. -/
theorem main_tests_not_empty_cex :
    main_run.tests ≠ [] ∧ main_run.tests.length = 7 := by
  constructor
  · decide
  · rfl

/-- C6 amended: `main` registers seven placeholder test cases, each wrapped
with `test_setup` and `test_teardown`, and the group runs with
`global_setup` and `global_teardown`. -/
theorem main_wires_seven_placeholder_tests :
    main_run.tests.length = 7 ∧
    (main_run.tests.all fun t =>
      t.setup == some "test_setup" && t.teardown == some "test_teardown")
      = true ∧
    main_run.group_setup = "global_setup" ∧
    main_run.group_teardown = "global_teardown" := by
  refine ⟨rfl, by decide, rfl, rfl⟩

/-- C7: `__wrap_i2c_write` always checks cmd and data_len and checks data
exactly when data is non-null with data_len > 0; `__wrap_uart_write` always
checks len and checks data exactly when data is non-null with len > 0;
`__wrap_spi_transfer` always checks len and checks tx_buf exactly when
tx_buf is non-null with len > 0; none of them checks fd. -/
theorem write_stubs_check_expected_pattern (s : CallCounts)
    (ei eu : Int) (est : SpiTransferEnv) (fd : Int) (cmd : Nat)
    (data tx_buf rx_buf : Option (List Nat)) (data_len ulen slen : Nat) :
    ("cmd" ∈ (__wrap_i2c_write ei s fd cmd data data_len).2.1 ∧
     "data_len" ∈ (__wrap_i2c_write ei s fd cmd data data_len).2.1 ∧
     ("data" ∈ (__wrap_i2c_write ei s fd cmd data data_len).2.1 ↔
       data.isSome ∧ 0 < data_len) ∧
     "fd" ∉ (__wrap_i2c_write ei s fd cmd data data_len).2.1) ∧
    ("len" ∈ (__wrap_uart_write eu s fd data ulen).2.1 ∧
     ("data" ∈ (__wrap_uart_write eu s fd data ulen).2.1 ↔
       data.isSome ∧ 0 < ulen) ∧
     "fd" ∉ (__wrap_uart_write eu s fd data ulen).2.1) ∧
    ("len" ∈ (__wrap_spi_transfer est s fd tx_buf rx_buf slen).2.1 ∧
     ("tx_buf" ∈ (__wrap_spi_transfer est s fd tx_buf rx_buf slen).2.1 ↔
       tx_buf.isSome ∧ 0 < slen) ∧
     "fd" ∉ (__wrap_spi_transfer est s fd tx_buf rx_buf slen).2.1) := by
  refine ⟨⟨?_, ?_, ?_, ?_⟩, ⟨?_, ?_, ?_⟩, ⟨?_, ?_, ?_⟩⟩ <;>
    simp only [__wrap_i2c_write, __wrap_uart_write, __wrap_spi_transfer] <;>
    split <;> simp_all

/-- Witness for C7: evaluates the check-event lists of the three write
stubs at concrete inputs on both sides of the conditional check. -/
theorem write_stubs_check_expected_pattern_witness :
    "cmd" ∈ (__wrap_i2c_write 0 zeroCounts 1 2 (some [3]) 1).2.1 ∧
    "data" ∈ (__wrap_i2c_write 0 zeroCounts 1 2 (some [3]) 1).2.1 ∧
    "fd" ∉ (__wrap_i2c_write 0 zeroCounts 1 2 (some [3]) 1).2.1 ∧
    "data" ∉ (__wrap_uart_write 0 zeroCounts 1 none 4).2.1 ∧
    "tx_buf" ∈ (__wrap_spi_transfer ⟨none, 0⟩ zeroCounts 1
      (some [5]) none 2).2.1 := by
  have h1 := write_stubs_check_expected_pattern zeroCounts 0 0 ⟨none, 0⟩
    1 2 (some [3]) (some [5]) none 1 4 2
  have h2 := write_stubs_check_expected_pattern zeroCounts 0 0 ⟨none, 0⟩
    1 2 none (some [5]) none 1 4 2
  exact ⟨h1.1.1, h1.1.2.2.1.mpr ⟨rfl, by decide⟩, h1.1.2.2.2,
    fun hm => absurd (h2.2.1.2.1.mp hm).1 (by decide),
    h1.2.2.2.1.mpr ⟨rfl, by decide⟩⟩

/-- C8: for any name outside the eleven known ones, `mock_function_called`
returns false for every expected count, including 0, after falling through
to the warning branch. -/
theorem mock_function_called_unknown_name (s : CallCounts) (n : Int)
    (name : String) (h : name ∉ knownFunctionNames) :
    mock_function_called s name n = false ∧
    mock_function_called_warned name = true := by
  simp only [knownFunctionNames, List.mem_cons, List.not_mem_nil, or_false,
    not_or] at h
  obtain ⟨h1, h2, h3, h4, h5, h6, h7, h8, h9, h10, h11⟩ := h
  constructor
  · simp [mock_function_called, h1, h2, h3, h4, h5, h6, h7, h8, h9, h10, h11]
  · simp [mock_function_called_warned,
      h1, h2, h3, h4, h5, h6, h7, h8, h9, h10, h11]

/-- Witness for C8: the unknown name `gpio_open` answers false even for an
expected count of 0. -/
theorem mock_function_called_unknown_name_witness :
    mock_function_called zeroCounts "gpio_open" 0 = false ∧
    mock_function_called_warned "gpio_open" = true :=
  mock_function_called_unknown_name zeroCounts 0 "gpio_open" (by decide)

/-- C9: `mock_init` and `mock_reset_counters` both zero every counter from
any state, hence agree from any pair of states; after either, every known
name queried with expected count 0 answers true; and `mock_reset_counters`
is idempotent. -/
theorem mock_init_reset_counters_equiv (s t : CallCounts) :
    mock_init s = zeroCounts ∧
    mock_reset_counters s = zeroCounts ∧
    mock_init s = mock_reset_counters t ∧
    (knownFunctionNames.all fun nm =>
      mock_function_called (mock_init s) nm 0) = true ∧
    (knownFunctionNames.all fun nm =>
      mock_function_called (mock_reset_counters s) nm 0) = true ∧
    mock_reset_counters (mock_reset_counters s) = mock_reset_counters s := by
  refine ⟨rfl, rfl, rfl, ?_, ?_, rfl⟩ <;>
  · show (knownFunctionNames.all fun nm =>
      mock_function_called zeroCounts nm 0) = true
    decide

/-- C10: `mock_cleanup` leaves the counter state unchanged, so every
`mock_function_called` query answers the same before and after it. -/
theorem mock_cleanup_preserves_counters (s : CallCounts) (name : String)
    (n : Int) :
    mock_cleanup s = s ∧
    mock_function_called (mock_cleanup s) name n =
      mock_function_called s name n :=
  ⟨rfl, rfl⟩

/-- Witness for C1: a state whose uart_write counter is 2 answers true for
an expected count of 2 on name `uart_write`. -/
theorem mock_function_called_known_names_witness :
    mock_function_called { zeroCounts with uart_write := 2 }
      "uart_write" 2 = true ∧
    mock_function_called { zeroCounts with uart_write := 2 }
      "uart_open" 1 = false := by
  have h := mock_function_called_known_names
    { zeroCounts with uart_write := 2 } 2
  exact ⟨h.2.2.2.2.2.2.1.mpr rfl, by decide⟩
